import Mathlib

/-! Havas Lynx watchface: settings store, callbacks and refresh sequences.

A shallow embedding of `src/c/main.c`.  The program's globals (the settings
record, the started flag, the persistent slot, the loaded bitmaps and what the
layers currently show) form the `State`; every procedure of the source is a
function `State → State`.  Each call into the watch SDK that has an effect is
also appended, in program order, to `State.trace`, so that the order of the
calls a handler makes can be stated.

What the program only reads from the watch (quiet time, battery level,
connection, clock) is the `Env` of one handler run; what is fixed when the
program is built (display kind, message keys, SDK colour conversion) is the
`Host`.
-/

namespace HavasLynx

/-! ## Data model -/

/-- The SDK's `GColor` (GColor8): one byte, two bits each of alpha, red, green, blue. -/
structure GColor where
  argb : Nat
deriving DecidableEq, Repr

/-- SDK constant `GColorBlack` (argb 0b11000000). -/
def GColorBlack : GColor := ⟨0xC0⟩

/-- SDK constant `GColorWhite` (argb 0b11111111). -/
def GColorWhite : GColor := ⟨0xFF⟩

/-- SDK constant `GColorChromeYellow` (argb 0b11111000). -/
def GColorChromeYellow : GColor := ⟨0xF8⟩

/-- SDK constant `GColorClear` (argb 0). -/
def GColorClear : GColor := ⟨0x00⟩

/-- `typedef struct ClaySettings` (main.c lines 12-19). -/
structure ClaySettings where
  ColourBackground : GColor
  ColourHour : GColor
  ColourMinute : GColor
  ToggleBluetoothQuietTime : Bool
  SelectBluetooth : Int
  SelectBatteryPercent : Int
deriving DecidableEq, Repr

/-- `#define SETTINGS_KEY 1` (main.c line 3). -/
def SETTINGS_KEY : Nat := 1

/-- The resources the program loads by identifier (`RESOURCE_ID_...`). -/
inductive Resource where
  | IMAGE_BATTERY_BLACK
  | IMAGE_BATTERY_WHITE
  | IMAGE_HAVAS_BLACK
  | IMAGE_HAVAS_WHITE
  | FONT_BEBAS_NEUE_BOLD_54
deriving DecidableEq, Repr

/-- The four layers of the window: `s_hour_layer`, `s_minute_layer`,
`s_layer_battery`, `s_layer_havas`. -/
inductive LayerId where
  | hour
  | minute
  | battery
  | havas
deriving DecidableEq, Repr

/-- The SDK calls with an effect that the program makes, with their arguments.
A bitmap argument is the resource it was created from (`none` for a null
pointer). -/
inductive Call where
  | persist_write_data (key : Nat) (data : ClaySettings)
  | gbitmap_destroy (bitmap : Option Resource)
  | gbitmap_create_with_resource (r : Resource)
  | bitmap_layer_set_bitmap (l : LayerId) (bitmap : Option Resource)
  | layer_set_hidden (l : LayerId) (hidden : Bool)
  | window_set_background_color (c : GColor)
  | text_layer_set_text_color (l : LayerId) (c : GColor)
  | text_layer_set_text (l : LayerId) (text : List Char)
  | vibes_short_pulse
  | vibes_long_pulse
  | vibes_double_pulse
  | fonts_load_custom_font (r : Resource)
  | text_layer_create (l : LayerId) (x y w h : Int)
  | bitmap_layer_create (l : LayerId) (x y w h : Int)
  | layer_mark_dirty (l : LayerId)
  | bitmap_layer_set_compositing_mode (l : LayerId)
  | layer_add_child (l : LayerId)
  | text_layer_set_font (l : LayerId)
  | text_layer_set_text_alignment (l : LayerId)
  | text_layer_set_background_color (l : LayerId) (c : GColor)
deriving DecidableEq, Repr

/-- A call that makes the watch vibrate. -/
def Call.isVibe : Call → Bool
  | .vibes_short_pulse => true
  | .vibes_long_pulse => true
  | .vibes_double_pulse => true
  | _ => false

/-- What is fixed at build time and supplied by the SDK, not by main.c:
the display kind behind `PBL_IF_BW_ELSE` / `PBL_COLOR`, the generated
`MESSAGE_KEY_...` constants, the `GColorFromHEX` conversion, and the SDK's
classification of a colour as light or dark. -/
structure Host where
  PBL_BW : Bool
  MESSAGE_KEY_COLOUR_BACKGROUND : Nat
  MESSAGE_KEY_COLOUR_HOUR : Nat
  MESSAGE_KEY_COLOUR_MINUTE : Nat
  MESSAGE_KEY_TOGGLE_BLUETOOTH_QUIET_TIME : Nat
  MESSAGE_KEY_SELECT_BLUETOOTH : Nat
  MESSAGE_KEY_SELECT_BATTERY_PERCENT : Nat
  GColorFromHEX : Int → GColor
  isLight : GColor → Bool

/-- What one handler run reads from the watch: `quiet_time_is_active()`,
`battery_state_service_peek().charge_percent`,
`connection_service_peek_pebble_app_connection()`, `clock_is_24h_style()`,
the hour and minute of `localtime`, and the root layer's bounds. -/
structure Env where
  quiet_time_is_active : Bool
  charge_percent : Nat
  pebble_app_connection : Bool
  clock_is_24h_style : Bool
  tm_hour : Nat
  tm_min : Nat
  bounds_w : Int
  bounds_h : Int
deriving DecidableEq, Repr

/-- The program's globals and what the watch currently holds for it:
`settings`, `appStarted`, the persistent storage (key, record), the two
bitmap pointers, the battery layer's hidden flag, the colours and texts last
set, and the SDK calls made so far (oldest first). -/
structure State where
  settings : ClaySettings
  appStarted : Bool
  persist : List (Nat × ClaySettings)
  s_bitmap_battery : Option Resource
  s_bitmap_havas : Option Resource
  battery_hidden : Bool
  window_background : GColor
  hour_colour : GColor
  minute_colour : GColor
  hour_text : List Char
  minute_text : List Char
  trace : List Call
deriving DecidableEq, Repr

/-- One entry of an inbound dictionary: its key and the two members of the
`value` union that the handler reads (`value->int32`, `value->cstring`). -/
structure Tuple where
  key : Nat
  int32 : Int
  cstring : List Char
deriving DecidableEq, Repr

/-! ## SDK and C library functions the program calls -/

/-- Record an SDK call at the end of the trace. -/
def emit (c : Call) (st : State) : State :=
  { st with trace := st.trace ++ [c] }

/-- The calls a procedure adds to the trace when run from `st`. -/
def callsOf (f : State → State) (st : State) : List Call :=
  (f st).trace.drop st.trace.length

/-- SDK `gcolor_equal`: the same byte, or both fully transparent. -/
def gcolor_equal (x y : GColor) : Bool :=
  (x.argb / 64 % 4 == 0 && y.argb / 64 % 4 == 0) || x.argb == y.argb

/-- Modelled from the spec: `gcolor_legible_over` is SDK code, not part of
main.c.  The spec describes it as "whichever of black/white is legible against
the background" (black-on-light or white-on-dark); which colours count as
light is the host's `isLight`. -/
def gcolor_legible_over (h : Host) (background : GColor) : GColor :=
  if h.isLight background then GColorBlack else GColorWhite

/-- Modelled from the spec: the black/white value a monochrome display gives a
colour, white for a light colour and black for a dark one. -/
def monochromeValue (h : Host) (c : GColor) : GColor :=
  if h.isLight c then GColorWhite else GColorBlack

/-- SDK `persist_read_data(key, buffer, size)` on a record-sized buffer: the
stored record when the key exists, the buffer untouched otherwise. -/
def persist_read_data (store : List (Nat × ClaySettings)) (key : Nat)
    (buffer : ClaySettings) : ClaySettings :=
  match store.lookup key with
  | some r => r
  | none => buffer

/-- SDK `dict_find`: the first tuple of the dictionary with the given key. -/
def dict_find (iter : List Tuple) (key : Nat) : Option Tuple :=
  iter.find? (fun t => t.key == key)

/-- C `isspace` in the "C" locale. -/
def isspace (c : Char) : Bool :=
  c == ' ' || (9 ≤ c.toNat && c.toNat ≤ 13)

/-- The value of the longest run of decimal digits at the head of the text,
accumulated onto `acc`. -/
def atoiDigits : List Char → Nat → Nat
  | [], acc => acc
  | c :: cs, acc => if c.isDigit then atoiDigits cs (acc * 10 + (c.toNat - 48)) else acc

/-- `INT_MIN` of the watch's 32-bit `int`. -/
def INT_MIN : Int := -2147483648

/-- `INT_MAX` of the watch's 32-bit `int`. -/
def INT_MAX : Int := 2147483647

/-- The number that `atoi` reads off a text, as a mathematical integer
(ISO C `strtol`, base 10): skip leading white space, take an optional sign,
convert the longest initial run of decimal digits and ignore whatever
follows; 0 when there is no digit. -/
def atoiValue (s : List Char) : Int :=
  match s.dropWhile isspace with
  | '-' :: rest => - (atoiDigits rest 0 : Int)
  | '+' :: rest => (atoiDigits rest 0 : Int)
  | rest => (atoiDigits rest 0 : Int)

/-- Conversion to the 32-bit `int`: the value itself from `INT_MIN` to
`INT_MAX`, reduced modulo 2^32 into that range otherwise. -/
def toInt32 (v : Int) : Int :=
  (v + 2147483648) % 4294967296 - 2147483648

/-- C standard library `atoi`, returning an `int`: the number read off the
text when it lies from `INT_MIN` to `INT_MAX`.  For a number outside that
range ISO C leaves the result undefined; the model then takes the 32-bit
wrap-around, and every statement about the number a text stores is made for
texts whose number is in range. -/
def atoi (s : List Char) : Int :=
  toInt32 (atoiValue s)

/-- Two decimal digits, as `strftime` prints `%H`, `%I` and `%M`. -/
def twoDigits (n : Nat) : List Char :=
  [Char.ofNat (48 + n / 10 % 10), Char.ofNat (48 + n % 10)]

/-- The hour of `strftime`'s `%I` (12-hour clock, 01 to 12). -/
def hour12 (hour : Nat) : Nat :=
  if hour % 12 = 0 then 12 else hour % 12

/-! ## Settings store (main.c lines 23-39) -/

/-- `config_default` (lines 23-30). -/
def config_default (h : Host) (st : State) : State :=
  { st with settings :=
    { ColourBackground := GColorBlack
      ColourHour := if h.PBL_BW then GColorWhite else GColorChromeYellow
      ColourMinute := GColorWhite
      ToggleBluetoothQuietTime := false
      SelectBluetooth := 2
      SelectBatteryPercent := 0 } }

/-- `config_save` (lines 32-34). -/
def config_save (st : State) : State :=
  emit (.persist_write_data SETTINGS_KEY st.settings)
    { st with persist := (SETTINGS_KEY, st.settings) :: st.persist }

/-- `config_load` (lines 36-39). -/
def config_load (h : Host) (st : State) : State :=
  let st := config_default h st
  { st with settings := persist_read_data st.persist SETTINGS_KEY st.settings }

/-! ## Methods (main.c lines 45-77) -/

/-- `getBatteryIcon` (lines 45-53). -/
def getBatteryIcon (h : Host) (st : State) : State :=
  let st := emit (.gbitmap_destroy st.s_bitmap_battery) st
  let r := if gcolor_equal (gcolor_legible_over h st.settings.ColourBackground) GColorBlack
    then Resource.IMAGE_BATTERY_BLACK else Resource.IMAGE_BATTERY_WHITE
  let st := emit (.gbitmap_create_with_resource r) { st with s_bitmap_battery := some r }
  emit (.bitmap_layer_set_bitmap .battery st.s_bitmap_battery) st

/-- `getHavasLogo` (lines 55-63). -/
def getHavasLogo (h : Host) (st : State) : State :=
  let st := emit (.gbitmap_destroy st.s_bitmap_havas) st
  let r := if gcolor_equal (gcolor_legible_over h st.settings.ColourBackground) GColorBlack
    then Resource.IMAGE_HAVAS_BLACK else Resource.IMAGE_HAVAS_WHITE
  let st := emit (.gbitmap_create_with_resource r) { st with s_bitmap_havas := some r }
  emit (.bitmap_layer_set_bitmap .havas st.s_bitmap_havas) st

/-- `setColours` (lines 65-69). -/
def setColours (h : Host) (st : State) : State :=
  let st := emit (.window_set_background_color st.settings.ColourBackground)
    { st with window_background := st.settings.ColourBackground }
  let hc := if h.PBL_BW then gcolor_legible_over h st.settings.ColourBackground
    else st.settings.ColourHour
  let st := emit (.text_layer_set_text_color .hour hc) { st with hour_colour := hc }
  let mc := if h.PBL_BW then gcolor_legible_over h st.settings.ColourBackground
    else st.settings.ColourMinute
  emit (.text_layer_set_text_color .minute mc) { st with minute_colour := mc }

/-- `vibrateBool` (lines 71-77). -/
def vibrateBool (e : Env) (st : State) : Bool :=
  if e.quiet_time_is_active && !st.settings.ToggleBluetoothQuietTime then false else true

/-! ## Time (main.c lines 83-96) -/

/-- `update_time` (lines 83-92). -/
def update_time (e : Env) (st : State) : State :=
  let h_buffer := if e.clock_is_24h_style then twoDigits e.tm_hour else twoDigits (hour12 e.tm_hour)
  let m_buffer := twoDigits e.tm_min
  let st := emit (.text_layer_set_text .hour h_buffer) { st with hour_text := h_buffer }
  emit (.text_layer_set_text .minute m_buffer) { st with minute_text := m_buffer }

/-- `tick_handler` (lines 94-96). -/
def tick_handler (e : Env) (st : State) : State :=
  update_time e st

/-! ## Callbacks (main.c lines 102-149) -/

/-- `battery_callback` (lines 102-109); `charge_percent` is the field of the
`BatteryChargeState` argument. -/
def battery_callback (h : Host) (charge_percent : Nat) (st : State) : State :=
  if (charge_percent : Int) ≤ st.settings.SelectBatteryPercent then
    let st := getBatteryIcon h st
    emit (.layer_set_hidden .battery false) { st with battery_hidden := false }
  else
    emit (.layer_set_hidden .battery true) { st with battery_hidden := true }

/-- `bluetooth_callback` (lines 111-121). -/
def bluetooth_callback (e : Env) (connected : Bool) (st : State) : State :=
  if !connected then
    if st.appStarted && vibrateBool e st then
      if st.settings.SelectBluetooth = 0 then st
      else if st.settings.SelectBluetooth = 1 then emit .vibes_short_pulse st
      else if st.settings.SelectBluetooth = 2 then emit .vibes_long_pulse st
      else if st.settings.SelectBluetooth = 3 then emit .vibes_double_pulse st
      else emit .vibes_long_pulse st
    else st
  else st

/-- The decoding part of `inbox_received_handler` (lines 124-138): one
`dict_find` and one conditional assignment to a field of `settings` per
recognised key, in the order of the source. -/
def inbox_decode (h : Host) (iter : List Tuple) (st : State) : State :=
  let s := st.settings
  let s := match dict_find iter h.MESSAGE_KEY_COLOUR_BACKGROUND with
    | some t => { s with ColourBackground := h.GColorFromHEX t.int32 }
    | none => s
  let s := match dict_find iter h.MESSAGE_KEY_COLOUR_HOUR with
    | some t => { s with ColourHour := h.GColorFromHEX t.int32 }
    | none => s
  let s := match dict_find iter h.MESSAGE_KEY_COLOUR_MINUTE with
    | some t => { s with ColourMinute := h.GColorFromHEX t.int32 }
    | none => s
  let s := match dict_find iter h.MESSAGE_KEY_TOGGLE_BLUETOOTH_QUIET_TIME with
    | some t => { s with ToggleBluetoothQuietTime := t.int32 == 1 }
    | none => s
  let s := match dict_find iter h.MESSAGE_KEY_SELECT_BLUETOOTH with
    | some t => { s with SelectBluetooth := atoi t.cstring }
    | none => s
  let s := match dict_find iter h.MESSAGE_KEY_SELECT_BATTERY_PERCENT with
    | some t => { s with SelectBatteryPercent := atoi t.cstring }
    | none => s
  { st with settings := s }

/-- The refresh part of `inbox_received_handler` (lines 142-148), the
statements after `config_save()`. -/
def inbox_refresh (h : Host) (e : Env) (st : State) : State :=
  let st := battery_callback h e.charge_percent st
  let st := getHavasLogo h st
  let st := { st with appStarted := false }
  let st := bluetooth_callback e e.pebble_app_connection st
  let st := { st with appStarted := true }
  let st := setColours h st
  update_time e st

/-- `inbox_received_handler` (lines 123-149): decode, `config_save()`, refresh. -/
def inbox_received_handler (h : Host) (e : Env) (iter : List Tuple) (st : State) : State :=
  inbox_refresh h e (config_save (inbox_decode h iter st))

/-! ## Window (main.c lines 155-206) -/

/-- The one-time setup of `window_load` (lines 156-192): font, layer creation
and placement, and the logo, which is loaded here by `getHavasLogo()`
(line 175).  The compositing mode is set only under `PBL_COLOR`. -/
def window_load_setup (h : Host) (e : Env) (st : State) : State :=
  let st := emit (.fonts_load_custom_font .FONT_BEBAS_NEUE_BOLD_54) st
  let st := emit (.text_layer_create .hour 15 (e.bounds_h - 60) (e.bounds_w.tdiv 2 - 15) 75) st
  let st := emit (.text_layer_create .minute (e.bounds_w.tdiv 2) (e.bounds_h - 60)
    (e.bounds_w.tdiv 2 - 15) 75) st
  let st := emit (.bitmap_layer_create .havas (e.bounds_w.tdiv 2 - (114 : Int).tdiv 2) 0 114 118) st
  let st := emit (.bitmap_layer_create .battery 4 2 12 12) st
  let st := emit (.layer_mark_dirty .battery) st
  let st := if h.PBL_BW then st else emit (.bitmap_layer_set_compositing_mode .battery) st
  let st := emit (.layer_add_child .battery) st
  let st := getHavasLogo h st
  let st := emit (.layer_mark_dirty .havas) st
  let st := if h.PBL_BW then st else emit (.bitmap_layer_set_compositing_mode .havas) st
  let st := emit (.layer_add_child .havas) st
  let st := emit (.text_layer_set_font .hour) st
  let st := emit (.text_layer_set_text_alignment .hour) st
  let st := emit (.text_layer_set_background_color .hour GColorClear) st
  let st := emit (.layer_add_child .hour) st
  let st := emit (.text_layer_set_font .minute) st
  let st := emit (.text_layer_set_text_alignment .minute) st
  let st := emit (.text_layer_set_background_color .minute GColorClear) st
  emit (.layer_add_child .minute) st

/-- The refresh part of `window_load` (lines 194-199), the statements after
the setup. -/
def window_load_refresh (h : Host) (e : Env) (st : State) : State :=
  let st := battery_callback h e.charge_percent st
  let st := { st with appStarted := false }
  let st := bluetooth_callback e e.pebble_app_connection st
  let st := { st with appStarted := true }
  let st := setColours h st
  update_time e st

/-- `window_load` (lines 155-200): setup, then refresh. -/
def window_load (h : Host) (e : Env) (st : State) : State :=
  window_load_refresh h e (window_load_setup h e st)

/-! ## Sample host, environment and state used for concrete evaluations -/

/-- The SDK's `GColorFromHEX` conversion: the top two bits of each of the three
colour bytes, with full alpha. -/
def GColorFromHEX_sdk (v : Int) : GColor :=
  let n := (v % 16777216).toNat
  ⟨192 + (n / 65536 % 256 / 64) * 16 + (n / 256 % 256 / 64) * 4 + n % 256 / 64⟩

/-- A luminance test on the two-bit channels: light when red + green + blue
(each 0 to 3) is at least 5. -/
def isLight_sample (c : GColor) : Bool :=
  decide (5 ≤ c.argb / 16 % 4 + c.argb / 4 % 4 + c.argb % 4)

/-- A host with the given display kind and message keys 10000 to 10005. -/
def sampleHost (bw : Bool) : Host :=
  { PBL_BW := bw
    MESSAGE_KEY_COLOUR_BACKGROUND := 10000
    MESSAGE_KEY_COLOUR_HOUR := 10001
    MESSAGE_KEY_COLOUR_MINUTE := 10002
    MESSAGE_KEY_TOGGLE_BLUETOOTH_QUIET_TIME := 10003
    MESSAGE_KEY_SELECT_BLUETOOTH := 10004
    MESSAGE_KEY_SELECT_BATTERY_PERCENT := 10005
    GColorFromHEX := GColorFromHEX_sdk
    isLight := isLight_sample }

/-- A 144 by 168 watch at 09:05, 24-hour style, phone disconnected, quiet
time off, battery at the given charge. -/
def sampleEnv (charge : Nat) : Env :=
  { quiet_time_is_active := false
    charge_percent := charge
    pebble_app_connection := false
    clock_is_24h_style := true
    tm_hour := 9
    tm_min := 5
    bounds_w := 144
    bounds_h := 168 }

/-- The state at program start: zeroed globals (C static storage), nothing
persisted, no call made yet. -/
def initialState : State :=
  { settings :=
    { ColourBackground := GColorClear
      ColourHour := GColorClear
      ColourMinute := GColorClear
      ToggleBluetoothQuietTime := false
      SelectBluetooth := 0
      SelectBatteryPercent := 0 }
    appStarted := false
    persist := []
    s_bitmap_battery := none
    s_bitmap_havas := none
    battery_hidden := false
    window_background := GColorClear
    hour_colour := GColorClear
    minute_colour := GColorClear
    hour_text := []
    minute_text := []
    trace := [] }

/-- The state in which the window is loaded at program start: `init` has run
`config_load()` on the initial state. -/
def startState (h : Host) : State :=
  config_load h initialState

/-- The settings a user might have configured: white background, threshold 20,
double pulse, quiet-time override on. -/
def sampleSettings : ClaySettings :=
  { ColourBackground := GColorWhite
    ColourHour := GColorBlack
    ColourMinute := GColorChromeYellow
    ToggleBluetoothQuietTime := true
    SelectBluetooth := 3
    SelectBatteryPercent := 20 }

/-- A well-formed decimal integer, in the words of the spec's inbound
protocol ("integer encoded as text"): an optional sign followed by one or more
characters, all of them decimal digits. -/
def isDecimalInteger (s : List Char) : Bool :=
  match s with
  | '-' :: rest => !rest.isEmpty && rest.all Char.isDigit
  | '+' :: rest => !rest.isEmpty && rest.all Char.isDigit
  | rest => !rest.isEmpty && rest.all Char.isDigit

/-- The text holds no number for `atoi`: after leading white space and an
optional sign, the next character is not a decimal digit (or the text ends). -/
def hasNoNumber (s : List Char) : Bool :=
  match s.dropWhile isspace with
  | '-' :: rest => !(rest.head?.any Char.isDigit)
  | '+' :: rest => !(rest.head?.any Char.isDigit)
  | rest => !(rest.head?.any Char.isDigit)


/-- The message entry with a text that holds no number replaced by the
well-formed text "0"; other entries are kept. -/
def zeroText (t : Tuple) : Tuple :=
  if hasNoNumber t.cstring then { t with cstring := ['0'] } else t

/-! ## Helper facts: what each procedure leaves alone and what it adds to the trace -/

@[simp] theorem emit_trace (c : Call) (st : State) : (emit c st).trace = st.trace ++ [c] := rfl

@[simp] theorem emit_settings (c : Call) (st : State) : (emit c st).settings = st.settings := rfl

@[simp] theorem emit_appStarted (c : Call) (st : State) : (emit c st).appStarted = st.appStarted := rfl

@[simp] theorem emit_battery_hidden (c : Call) (st : State) :
    (emit c st).battery_hidden = st.battery_hidden := rfl

theorem callsOf_of_trace (f : State → State) (st : State) (l : List Call)
    (hf : (f st).trace = st.trace ++ l) : callsOf f st = l := by
  simp [callsOf, hf]

theorem getBatteryIcon_settings (h : Host) (st : State) :
    (getBatteryIcon h st).settings = st.settings := by
  simp [getBatteryIcon]

theorem getHavasLogo_settings (h : Host) (st : State) :
    (getHavasLogo h st).settings = st.settings := by
  simp [getHavasLogo]

theorem battery_callback_settings (h : Host) (c : Nat) (st : State) :
    (battery_callback h c st).settings = st.settings := by
  unfold battery_callback
  split <;> simp [getBatteryIcon_settings]

theorem bluetooth_callback_settings (e : Env) (connected : Bool) (st : State) :
    (bluetooth_callback e connected st).settings = st.settings := by
  unfold bluetooth_callback
  repeat (first | rfl | split)

theorem setColours_settings (h : Host) (st : State) :
    (setColours h st).settings = st.settings := by
  simp [setColours]

theorem update_time_settings (e : Env) (st : State) :
    (update_time e st).settings = st.settings := by
  simp [update_time]

theorem config_save_settings (st : State) : (config_save st).settings = st.settings := by
  simp [config_save]

theorem inbox_refresh_settings (h : Host) (e : Env) (st : State) :
    (inbox_refresh h e st).settings = st.settings := by
  simp [inbox_refresh, update_time_settings, setColours_settings, bluetooth_callback_settings,
    getHavasLogo_settings, battery_callback_settings]

theorem inbox_received_handler_settings (h : Host) (e : Env) (iter : List Tuple) (st : State) :
    (inbox_received_handler h e iter st).settings = (inbox_decode h iter st).settings := by
  simp [inbox_received_handler, inbox_refresh_settings, config_save_settings]

theorem bluetooth_callback_not_started (e : Env) (connected : Bool) (st : State)
    (hs : st.appStarted = false) : bluetooth_callback e connected st = st := by
  unfold bluetooth_callback
  simp [hs]

theorem getBatteryIcon_trace (h : Host) (st : State) :
    (getBatteryIcon h st).trace = st.trace ++ callsOf (getBatteryIcon h) st := by
  simp [callsOf, getBatteryIcon]

theorem getHavasLogo_trace (h : Host) (st : State) :
    (getHavasLogo h st).trace = st.trace ++ callsOf (getHavasLogo h) st := by
  simp [callsOf, getHavasLogo]

theorem battery_callback_trace (h : Host) (c : Nat) (st : State) :
    (battery_callback h c st).trace = st.trace ++ callsOf (battery_callback h c) st := by
  unfold callsOf battery_callback
  split <;> simp [getBatteryIcon]

theorem setColours_trace (h : Host) (st : State) :
    (setColours h st).trace = st.trace ++ callsOf (setColours h) st := by
  simp [callsOf, setColours]

theorem update_time_trace (e : Env) (st : State) :
    (update_time e st).trace = st.trace ++ callsOf (update_time e) st := by
  simp [callsOf, update_time]


/-! ## Bluetooth vibration -/

/-- C1: the vibration emitted by `bluetooth_callback`. Nothing when connected,
or when `appStarted` is false, or when quiet time is active while
`ToggleBluetoothQuietTime` is false; otherwise exactly the pattern selected by
`SelectBluetooth`: 0 none, 1 short, 2 long, 3 double, any other integer long.
The callback changes nothing but the trace. -/
theorem bluetooth_callback_vibration (e : Env) (connected : Bool) (st : State) :
    ((connected = true ∨ st.appStarted = false ∨
        (e.quiet_time_is_active = true ∧ st.settings.ToggleBluetoothQuietTime = false)) →
      callsOf (bluetooth_callback e connected) st = []) ∧
    (¬ (connected = true ∨ st.appStarted = false ∨
        (e.quiet_time_is_active = true ∧ st.settings.ToggleBluetoothQuietTime = false)) →
      (st.settings.SelectBluetooth = 0 → callsOf (bluetooth_callback e connected) st = []) ∧
      (st.settings.SelectBluetooth = 1 →
        callsOf (bluetooth_callback e connected) st = [Call.vibes_short_pulse]) ∧
      (st.settings.SelectBluetooth = 2 →
        callsOf (bluetooth_callback e connected) st = [Call.vibes_long_pulse]) ∧
      (st.settings.SelectBluetooth = 3 →
        callsOf (bluetooth_callback e connected) st = [Call.vibes_double_pulse]) ∧
      (st.settings.SelectBluetooth ≠ 0 → st.settings.SelectBluetooth ≠ 1 →
        st.settings.SelectBluetooth ≠ 2 → st.settings.SelectBluetooth ≠ 3 →
        callsOf (bluetooth_callback e connected) st = [Call.vibes_long_pulse])) ∧
    { bluetooth_callback e connected st with trace := st.trace } = st := by
  refine ⟨?_, ?_, ?_⟩
  · intro hs
    have : bluetooth_callback e connected st = st := by
      unfold bluetooth_callback vibrateBool
      rcases hs with hc | ha | ⟨hq, ht⟩
      · simp [hc]
      · simp [ha]
      · simp [hq, ht]
    simp [callsOf, this]
  · intro hs
    simp only [not_or, not_and] at hs
    obtain ⟨hc, ha, hq⟩ := hs
    have hc2 : connected = false := by simpa using hc
    have ha2 : st.appStarted = true := by simpa using ha
    have hv : vibrateBool e st = true := by
      unfold vibrateBool
      cases hqt : e.quiet_time_is_active
      · simp
      · have := hq hqt
        simp [this]
    refine ⟨?_, ?_, ?_, ?_, ?_⟩
    · intro h0
      simp [callsOf, bluetooth_callback, hc2, ha2, hv, h0]
    · intro h1
      simp [callsOf, bluetooth_callback, hc2, ha2, hv, h1]
    · intro h2
      simp [callsOf, bluetooth_callback, hc2, ha2, hv, h2]
    · intro h3
      simp [callsOf, bluetooth_callback, hc2, ha2, hv, h3]
    · intro h0 h1 h2 h3
      simp [callsOf, bluetooth_callback, hc2, ha2, hv, h0, h1, h2, h3]
  · unfold bluetooth_callback
    repeat (first | rfl | split)

/-- Witness for C1: started, phone disconnected, double pulse selected. With
quiet time off the callback emits the double pulse; with quiet time active and
the override off it emits nothing. -/
theorem bluetooth_callback_vibration_witness :
    callsOf (bluetooth_callback (sampleEnv 50) false)
      { initialState with settings := sampleSettings, appStarted := true }
      = [Call.vibes_double_pulse] ∧
    callsOf (bluetooth_callback { sampleEnv 50 with quiet_time_is_active := true } false)
      { initialState with
        settings := { sampleSettings with ToggleBluetoothQuietTime := false },
        appStarted := true }
      = [] :=
  ⟨((bluetooth_callback_vibration (sampleEnv 50) false
      { initialState with settings := sampleSettings, appStarted := true }).2.1
      (by decide)).2.2.2.1 (by decide),
    (bluetooth_callback_vibration { sampleEnv 50 with quiet_time_is_active := true } false
      { initialState with
        settings := { sampleSettings with ToggleBluetoothQuietTime := false },
        appStarted := true }).1 (by decide)⟩

/-! ## Battery icon -/

/-- C2: after `battery_callback` the battery icon layer is visible
(hidden = false) exactly when the charge is at most the threshold, whatever
its visibility was before; the `layer_set_hidden` call made last carries the
same flag. With threshold 20 and charge 15 the icon is visible. -/
theorem battery_callback_visible_iff (h : Host) (c : Nat) (st : State) :
    ((battery_callback h c st).battery_hidden = false ↔
      (c : Int) ≤ st.settings.SelectBatteryPercent) ∧
    (battery_callback h c st).trace.getLast? =
      some (Call.layer_set_hidden LayerId.battery
        (decide (st.settings.SelectBatteryPercent < (c : Int)))) ∧
    (battery_callback h 15
      { st with settings := { st.settings with SelectBatteryPercent := 20 } }).battery_hidden
      = false := by
  refine ⟨?_, ?_, ?_⟩
  · unfold battery_callback
    split <;> simp_all
  · unfold battery_callback
    split
    · rename_i hle
      simp [not_lt.mpr hle]
    · rename_i hle
      simp [not_le.mp hle]
  · simp [battery_callback]

/-! ## Inbound configuration message -/

/-- C3: frame property of `inbox_received_handler`. For each of the six
settings fields: when its key is absent from the message the field keeps its
prior value, and when present the field is the decoding of that tuple. So a
message with only the background-colour key leaves the other five fields
unchanged, and a message with none of the keys leaves the record unchanged. -/
theorem inbox_received_handler_frame (h : Host) (e : Env) (iter : List Tuple) (st : State) :
    ((dict_find iter h.MESSAGE_KEY_COLOUR_BACKGROUND = none →
        (inbox_received_handler h e iter st).settings.ColourBackground
          = st.settings.ColourBackground) ∧
      (dict_find iter h.MESSAGE_KEY_COLOUR_HOUR = none →
        (inbox_received_handler h e iter st).settings.ColourHour = st.settings.ColourHour) ∧
      (dict_find iter h.MESSAGE_KEY_COLOUR_MINUTE = none →
        (inbox_received_handler h e iter st).settings.ColourMinute = st.settings.ColourMinute) ∧
      (dict_find iter h.MESSAGE_KEY_TOGGLE_BLUETOOTH_QUIET_TIME = none →
        (inbox_received_handler h e iter st).settings.ToggleBluetoothQuietTime
          = st.settings.ToggleBluetoothQuietTime) ∧
      (dict_find iter h.MESSAGE_KEY_SELECT_BLUETOOTH = none →
        (inbox_received_handler h e iter st).settings.SelectBluetooth
          = st.settings.SelectBluetooth) ∧
      (dict_find iter h.MESSAGE_KEY_SELECT_BATTERY_PERCENT = none →
        (inbox_received_handler h e iter st).settings.SelectBatteryPercent
          = st.settings.SelectBatteryPercent)) ∧
    ((∀ t, dict_find iter h.MESSAGE_KEY_COLOUR_BACKGROUND = some t →
        (inbox_received_handler h e iter st).settings.ColourBackground
          = h.GColorFromHEX t.int32) ∧
      (∀ t, dict_find iter h.MESSAGE_KEY_COLOUR_HOUR = some t →
        (inbox_received_handler h e iter st).settings.ColourHour = h.GColorFromHEX t.int32) ∧
      (∀ t, dict_find iter h.MESSAGE_KEY_COLOUR_MINUTE = some t →
        (inbox_received_handler h e iter st).settings.ColourMinute = h.GColorFromHEX t.int32) ∧
      (∀ t, dict_find iter h.MESSAGE_KEY_TOGGLE_BLUETOOTH_QUIET_TIME = some t →
        (inbox_received_handler h e iter st).settings.ToggleBluetoothQuietTime
          = (t.int32 == 1)) ∧
      (∀ t, dict_find iter h.MESSAGE_KEY_SELECT_BLUETOOTH = some t →
        (inbox_received_handler h e iter st).settings.SelectBluetooth = atoi t.cstring) ∧
      (∀ t, dict_find iter h.MESSAGE_KEY_SELECT_BATTERY_PERCENT = some t →
        (inbox_received_handler h e iter st).settings.SelectBatteryPercent
          = atoi t.cstring)) ∧
    (dict_find iter h.MESSAGE_KEY_COLOUR_BACKGROUND = none →
      dict_find iter h.MESSAGE_KEY_COLOUR_HOUR = none →
      dict_find iter h.MESSAGE_KEY_COLOUR_MINUTE = none →
      dict_find iter h.MESSAGE_KEY_TOGGLE_BLUETOOTH_QUIET_TIME = none →
      dict_find iter h.MESSAGE_KEY_SELECT_BLUETOOTH = none →
      dict_find iter h.MESSAGE_KEY_SELECT_BATTERY_PERCENT = none →
      (inbox_received_handler h e iter st).settings = st.settings) := by
  rw [inbox_received_handler_settings]
  unfold inbox_decode
  refine ⟨⟨?_, ?_, ?_, ?_, ?_, ?_⟩, ⟨?_, ?_, ?_, ?_, ?_, ?_⟩, ?_⟩
  · intro h1
    simp only [h1]
    repeat (first | rfl | split)
  · intro h1
    simp only [h1]
    repeat (first | rfl | split)
  · intro h1
    simp only [h1]
    repeat (first | rfl | split)
  · intro h1
    simp only [h1]
    repeat (first | rfl | split)
  · intro h1
    simp only [h1]
    repeat (first | rfl | split)
  · intro h1
    simp only [h1]
    repeat (first | rfl | split)
  · intro t h1
    simp only [h1]
    repeat (first | rfl | split)
  · intro t h1
    simp only [h1]
    repeat (first | rfl | split)
  · intro t h1
    simp only [h1]
    repeat (first | rfl | split)
  · intro t h1
    simp only [h1]
    repeat (first | rfl | split)
  · intro t h1
    simp only [h1]
    repeat (first | rfl | split)
  · intro t h1
    simp only [h1]
  · intro h1 h2 h3 h4 h5 h6
    simp only [h1, h2, h3, h4, h5, h6]


/-- Witness for C3: a message that sets only the background colour (packed
0xFFFFFF) changes the background to white and leaves the other five fields. -/
theorem inbox_received_handler_frame_witness :
    (inbox_received_handler (sampleHost false) (sampleEnv 50) [⟨10000, 16777215, []⟩]
      (startState (sampleHost false))).settings.ColourBackground = GColorWhite ∧
    (inbox_received_handler (sampleHost false) (sampleEnv 50) [⟨10000, 16777215, []⟩]
      (startState (sampleHost false))).settings.ColourHour = GColorChromeYellow ∧
    (inbox_received_handler (sampleHost false) (sampleEnv 50) [⟨10000, 16777215, []⟩]
      (startState (sampleHost false))).settings.SelectBluetooth = 2 :=
  ⟨(inbox_received_handler_frame (sampleHost false) (sampleEnv 50) [⟨10000, 16777215, []⟩]
      (startState (sampleHost false))).2.1.1 ⟨10000, 16777215, []⟩ (by decide),
    (inbox_received_handler_frame (sampleHost false) (sampleEnv 50) [⟨10000, 16777215, []⟩]
      (startState (sampleHost false))).1.2.1 (by decide),
    (inbox_received_handler_frame (sampleHost false) (sampleEnv 50) [⟨10000, 16777215, []⟩]
      (startState (sampleHost false))).1.2.2.2.2.1 (by decide)⟩

/-! ## Settings store: defaults and round trip -/

/-- C4: when the persistent slot `SETTINGS_KEY` holds no record, `config_load`
leaves exactly the defaults, whatever the record held before: background
black, hour white on a black-and-white display and ChromeYellow on a colour
display, minute white, quiet-time toggle false, vibration 2, threshold 0. -/
theorem config_load_defaults (h : Host) (st : State)
    (hnone : st.persist.lookup SETTINGS_KEY = none) :
    (config_load h st).settings.ColourBackground = GColorBlack ∧
    (h.PBL_BW = true → (config_load h st).settings.ColourHour = GColorWhite) ∧
    (h.PBL_BW = false → (config_load h st).settings.ColourHour = GColorChromeYellow) ∧
    (config_load h st).settings.ColourMinute = GColorWhite ∧
    (config_load h st).settings.ToggleBluetoothQuietTime = false ∧
    (config_load h st).settings.SelectBluetooth = 2 ∧
    (config_load h st).settings.SelectBatteryPercent = 0 := by
  have hl : (config_load h st).settings = (config_default h st).settings := by
    simp [config_load, persist_read_data, config_default, hnone]
  rw [hl]
  refine ⟨rfl, ?_, ?_, rfl, rfl, rfl, rfl⟩
  · intro hb
    simp [config_default, hb]
  · intro hb
    simp [config_default, hb]

/-- Witness for C4: a black-and-white watch with nothing persisted and a
configured record in memory. -/
theorem config_load_defaults_witness :
    ({ initialState with settings := sampleSettings } : State).persist.lookup SETTINGS_KEY = none ∧
    ((config_load (sampleHost true)
        { initialState with settings := sampleSettings }).settings.ColourBackground = GColorBlack ∧
      ((sampleHost true).PBL_BW = true →
        (config_load (sampleHost true)
          { initialState with settings := sampleSettings }).settings.ColourHour = GColorWhite) ∧
      ((sampleHost true).PBL_BW = false →
        (config_load (sampleHost true)
          { initialState with settings := sampleSettings }).settings.ColourHour
          = GColorChromeYellow) ∧
      (config_load (sampleHost true)
        { initialState with settings := sampleSettings }).settings.ColourMinute = GColorWhite ∧
      (config_load (sampleHost true)
        { initialState with settings := sampleSettings }).settings.ToggleBluetoothQuietTime
        = false ∧
      (config_load (sampleHost true)
        { initialState with settings := sampleSettings }).settings.SelectBluetooth = 2 ∧
      (config_load (sampleHost true)
        { initialState with settings := sampleSettings }).settings.SelectBatteryPercent = 0) :=
  ⟨by decide,
    config_load_defaults (sampleHost true) { initialState with settings := sampleSettings }
      (by decide)⟩

/-- C5: `config_save` followed by `config_load`, started from any in-memory
state that sees the saved storage, gives back the saved record in every field;
none of the defaults written by `config_load`'s first step survives. -/
theorem config_save_load_roundtrip (h : Host) (st st2 : State) :
    (config_load h { st2 with persist := (config_save st).persist }).settings = st.settings ∧
    (config_load h (config_save st)).settings = st.settings := by
  constructor <;>
    simp [config_load, config_default, config_save, persist_read_data, emit, List.lookup]

/-! ## Colours -/

/-- C6: on a monochrome display `setColours` sets both text colours to the
legible-over-background colour (black over a light background, white over a
dark one), which never equals the background's own black/white value and does
not depend on `ColourHour` / `ColourMinute`; on a colour display the text
colours are exactly `ColourHour` and `ColourMinute`. The colours are the ones
passed to the two `text_layer_set_text_color` calls. -/
theorem setColours_text_colours (h : Host) (st : State) :
    (h.PBL_BW = true →
      (setColours h st).hour_colour = gcolor_legible_over h st.settings.ColourBackground ∧
      (setColours h st).minute_colour = gcolor_legible_over h st.settings.ColourBackground ∧
      (h.isLight st.settings.ColourBackground = true →
        (setColours h st).hour_colour = GColorBlack ∧
        (setColours h st).minute_colour = GColorBlack) ∧
      (h.isLight st.settings.ColourBackground = false →
        (setColours h st).hour_colour = GColorWhite ∧
        (setColours h st).minute_colour = GColorWhite) ∧
      (setColours h st).hour_colour ≠ monochromeValue h st.settings.ColourBackground ∧
      (setColours h st).minute_colour ≠ monochromeValue h st.settings.ColourBackground ∧
      (∀ ch cm : GColor,
        (setColours h { st with settings :=
          { st.settings with ColourHour := ch, ColourMinute := cm } }).hour_colour
          = (setColours h st).hour_colour ∧
        (setColours h { st with settings :=
          { st.settings with ColourHour := ch, ColourMinute := cm } }).minute_colour
          = (setColours h st).minute_colour)) ∧
    (h.PBL_BW = false →
      (setColours h st).hour_colour = st.settings.ColourHour ∧
      (setColours h st).minute_colour = st.settings.ColourMinute) ∧
    callsOf (setColours h) st =
      [Call.window_set_background_color st.settings.ColourBackground,
       Call.text_layer_set_text_color LayerId.hour (setColours h st).hour_colour,
       Call.text_layer_set_text_color LayerId.minute (setColours h st).minute_colour] := by
  refine ⟨?_, ?_, ?_⟩
  · intro hb
    have hh : (setColours h st).hour_colour
        = gcolor_legible_over h st.settings.ColourBackground := by
      simp [setColours, emit, hb]
    have hm : (setColours h st).minute_colour
        = gcolor_legible_over h st.settings.ColourBackground := by
      simp [setColours, emit, hb]
    refine ⟨hh, hm, ?_, ?_, ?_, ?_, ?_⟩
    · intro hl
      simp [hh, hm, gcolor_legible_over, hl]
    · intro hl
      simp [hh, hm, gcolor_legible_over, hl]
    · rw [hh]
      unfold gcolor_legible_over monochromeValue
      cases h.isLight st.settings.ColourBackground <;> decide
    · rw [hm]
      unfold gcolor_legible_over monochromeValue
      cases h.isLight st.settings.ColourBackground <;> decide
    · intro ch cm
      simp [setColours, emit, hb]
  · intro hb
    simp [setColours, emit, hb]
  · simp [callsOf, setColours, emit]

/-- Witness for C6: on a black-and-white watch with a white background and
the user colours black and ChromeYellow, both texts are black. -/
theorem setColours_text_colours_witness :
    (setColours (sampleHost true) { initialState with settings := sampleSettings }).hour_colour
      = GColorBlack ∧
    (setColours (sampleHost true) { initialState with settings := sampleSettings }).minute_colour
      = GColorBlack :=
  ((setColours_text_colours (sampleHost true)
    { initialState with settings := sampleSettings }).1 (by decide)).2.2.1 (by decide)

/-! ## Default threshold -/

/-- C7 as stated fails at charge 0: with the default threshold 0 the test
`0 <= 0` holds and `battery_callback` shows the icon. -/
theorem battery_default_threshold_counterexample :
    (config_default (sampleHost false) initialState).settings.SelectBatteryPercent = 0 ∧
    (battery_callback (sampleHost false) 0
      (config_default (sampleHost false) initialState)).battery_hidden = false ∧
    ¬ (∀ c : Nat, c ≤ 100 →
      (battery_callback (sampleHost false) c
        (config_default (sampleHost false) initialState)).battery_hidden = true) := by
  refine ⟨by decide, by decide, ?_⟩
  intro hall
  have h0 := hall 0 (by decide)
  revert h0
  decide

/-- C7 amended: with the default settings `battery_callback` leaves the
low-battery icon hidden exactly for a charge of at least 1; at charge 0 the
icon is shown. -/
theorem battery_default_threshold_hidden_iff (h : Host) (c : Nat) (st : State) :
    (battery_callback h c (config_default h st)).battery_hidden = true ↔ 1 ≤ c := by
  unfold battery_callback
  have ht : (config_default h st).settings.SelectBatteryPercent = 0 := rfl
  rw [ht]
  split
  · rename_i hle
    have : c = 0 := by omega
    simp [this]
  · rename_i hle
    have : 1 ≤ c := by omega
    simp [this]


/-! ## Text fields of an inbound message -/

theorem atoiDigits_no_digit (s : List Char) (hs : s.head?.any Char.isDigit = false) :
    atoiDigits s 0 = 0 := by
  cases s with
  | nil => rfl
  | cons c cs =>
    have hc : c.isDigit = false := by simpa using hs
    simp [atoiDigits, hc]

theorem atoiValue_hasNoNumber (s : List Char) (hs : hasNoNumber s = true) :
    atoiValue s = 0 := by
  unfold hasNoNumber at hs
  unfold atoiValue
  split <;> rename_i heq <;> simp only [heq] at hs <;> simp at hs <;>
    simp [atoiDigits_no_digit _ (by simpa using hs)]

theorem toInt32_of_range (v : Int) (hlo : INT_MIN ≤ v) (hhi : v ≤ INT_MAX) :
    toInt32 v = v := by
  unfold INT_MIN at hlo
  unfold INT_MAX at hhi
  unfold toInt32
  omega

theorem atoi_of_range (s : List Char) (hlo : INT_MIN ≤ atoiValue s)
    (hhi : atoiValue s ≤ INT_MAX) : atoi s = atoiValue s := by
  unfold atoi
  exact toInt32_of_range _ hlo hhi

theorem atoi_hasNoNumber (s : List Char) (hs : hasNoNumber s = true) : atoi s = 0 := by
  unfold atoi
  rw [atoiValue_hasNoNumber s hs]
  decide


theorem zeroText_key (t : Tuple) : (zeroText t).key = t.key := by
  unfold zeroText
  split <;> rfl

theorem zeroText_int32 (t : Tuple) : (zeroText t).int32 = t.int32 := by
  unfold zeroText
  split <;> rfl

theorem atoi_zeroText (t : Tuple) : atoi (zeroText t).cstring = atoi t.cstring := by
  unfold zeroText
  split
  · rename_i hn
    rw [atoi_hasNoNumber _ hn]
    show atoi ['0'] = 0
    decide
  · rfl

theorem dict_find_map_zeroText (iter : List Tuple) (k : Nat) :
    dict_find (iter.map zeroText) k = (dict_find iter k).map zeroText := by
  induction iter with
  | nil => rfl
  | cons t ts ih =>
    unfold dict_find at ih ⊢
    simp only [List.map_cons, List.find?_cons, zeroText_key]
    split
    · rfl
    · exact ih

theorem inbox_decode_eq (h : Host) (iter : List Tuple) (st : State) :
    inbox_decode h iter st = { st with settings :=
      { ColourBackground :=
          match dict_find iter h.MESSAGE_KEY_COLOUR_BACKGROUND with
          | some t => h.GColorFromHEX t.int32
          | none => st.settings.ColourBackground
        ColourHour :=
          match dict_find iter h.MESSAGE_KEY_COLOUR_HOUR with
          | some t => h.GColorFromHEX t.int32
          | none => st.settings.ColourHour
        ColourMinute :=
          match dict_find iter h.MESSAGE_KEY_COLOUR_MINUTE with
          | some t => h.GColorFromHEX t.int32
          | none => st.settings.ColourMinute
        ToggleBluetoothQuietTime :=
          match dict_find iter h.MESSAGE_KEY_TOGGLE_BLUETOOTH_QUIET_TIME with
          | some t => t.int32 == 1
          | none => st.settings.ToggleBluetoothQuietTime
        SelectBluetooth :=
          match dict_find iter h.MESSAGE_KEY_SELECT_BLUETOOTH with
          | some t => atoi t.cstring
          | none => st.settings.SelectBluetooth
        SelectBatteryPercent :=
          match dict_find iter h.MESSAGE_KEY_SELECT_BATTERY_PERCENT with
          | some t => atoi t.cstring
          | none => st.settings.SelectBatteryPercent } } := by
  rcases h1 : dict_find iter h.MESSAGE_KEY_COLOUR_BACKGROUND with _ | t1 <;>
  rcases h2 : dict_find iter h.MESSAGE_KEY_COLOUR_HOUR with _ | t2 <;>
  rcases h3 : dict_find iter h.MESSAGE_KEY_COLOUR_MINUTE with _ | t3 <;>
  rcases h4 : dict_find iter h.MESSAGE_KEY_TOGGLE_BLUETOOTH_QUIET_TIME with _ | t4 <;>
  rcases h5 : dict_find iter h.MESSAGE_KEY_SELECT_BLUETOOTH with _ | t5 <;>
  rcases h6 : dict_find iter h.MESSAGE_KEY_SELECT_BATTERY_PERCENT with _ | t6 <;>
  simp only [inbox_decode, h1, h2, h3, h4, h5, h6]

theorem inbox_decode_zeroText (h : Host) (iter : List Tuple) (st : State) :
    inbox_decode h (iter.map zeroText) st = inbox_decode h iter st := by
  rw [inbox_decode_eq, inbox_decode_eq]
  simp only [dict_find_map_zeroText]
  cases dict_find iter h.MESSAGE_KEY_COLOUR_BACKGROUND <;>
  cases dict_find iter h.MESSAGE_KEY_COLOUR_HOUR <;>
  cases dict_find iter h.MESSAGE_KEY_COLOUR_MINUTE <;>
  cases dict_find iter h.MESSAGE_KEY_TOGGLE_BLUETOOTH_QUIET_TIME <;>
  cases dict_find iter h.MESSAGE_KEY_SELECT_BLUETOOTH <;>
  cases dict_find iter h.MESSAGE_KEY_SELECT_BATTERY_PERCENT <;>
  simp only [Option.map_some', Option.map_none', zeroText_int32, atoi_zeroText]

/-- C8 as stated fails: the texts "3x" and "50%" are not well-formed decimal
integers, yet `atoi` converts their leading digits, so the handler stores 3
and 50, not 0. -/
theorem inbox_malformed_text_counterexample :
    isDecimalInteger "3x".toList = false ∧
    isDecimalInteger "50%".toList = false ∧
    (inbox_received_handler (sampleHost false) (sampleEnv 50)
      [⟨10004, 0, "3x".toList⟩, ⟨10005, 0, "50%".toList⟩]
      initialState).settings.SelectBluetooth = 3 ∧
    (inbox_received_handler (sampleHost false) (sampleEnv 50)
      [⟨10004, 0, "3x".toList⟩, ⟨10005, 0, "50%".toList⟩]
      initialState).settings.SelectBatteryPercent = 50 := by
  refine ⟨by decide, by decide, by decide, by decide⟩

/-- C8 amended: when the vibration-pattern key (respectively the
battery-threshold key) is present with a text that holds no number (after
leading white space and an optional sign the next character is not a digit),
`inbox_received_handler` sets `SelectBluetooth` (respectively
`SelectBatteryPercent`) to 0. When the number read off the text lies from
`INT_MIN` to `INT_MAX`, the field is set to that number, the value of the
text's leading digits. No error is reported: the handler's whole result,
saved record and calls made included, is the one it gives for the message
with every text without a number replaced by the well-formed text "0". -/
theorem inbox_text_without_number (h : Host) (e : Env) (iter : List Tuple) (st : State) :
    (∀ t, dict_find iter h.MESSAGE_KEY_SELECT_BLUETOOTH = some t →
      hasNoNumber t.cstring = true →
      (inbox_received_handler h e iter st).settings.SelectBluetooth = 0) ∧
    (∀ t, dict_find iter h.MESSAGE_KEY_SELECT_BATTERY_PERCENT = some t →
      hasNoNumber t.cstring = true →
      (inbox_received_handler h e iter st).settings.SelectBatteryPercent = 0) ∧
    (∀ t, dict_find iter h.MESSAGE_KEY_SELECT_BLUETOOTH = some t →
      INT_MIN ≤ atoiValue t.cstring → atoiValue t.cstring ≤ INT_MAX →
      (inbox_received_handler h e iter st).settings.SelectBluetooth = atoiValue t.cstring) ∧
    (∀ t, dict_find iter h.MESSAGE_KEY_SELECT_BATTERY_PERCENT = some t →
      INT_MIN ≤ atoiValue t.cstring → atoiValue t.cstring ≤ INT_MAX →
      (inbox_received_handler h e iter st).settings.SelectBatteryPercent
        = atoiValue t.cstring) ∧
    inbox_received_handler h e iter st = inbox_received_handler h e (iter.map zeroText) st := by
  have hbt : ∀ t, dict_find iter h.MESSAGE_KEY_SELECT_BLUETOOTH = some t →
      (inbox_received_handler h e iter st).settings.SelectBluetooth = atoi t.cstring := by
    intro t ht
    rw [inbox_received_handler_settings]
    unfold inbox_decode
    simp only [ht]
    repeat (first | rfl | split)
  have hbp : ∀ t, dict_find iter h.MESSAGE_KEY_SELECT_BATTERY_PERCENT = some t →
      (inbox_received_handler h e iter st).settings.SelectBatteryPercent = atoi t.cstring := by
    intro t ht
    rw [inbox_received_handler_settings]
    unfold inbox_decode
    simp only [ht]
  refine ⟨?_, ?_, ?_, ?_, ?_⟩
  · intro t ht hn
    rw [hbt t ht, atoi_hasNoNumber _ hn]
  · intro t ht hn
    rw [hbp t ht, atoi_hasNoNumber _ hn]
  · intro t ht hlo hhi
    rw [hbt t ht, atoi_of_range _ hlo hhi]
  · intro t ht hlo hhi
    rw [hbp t ht, atoi_of_range _ hlo hhi]
  · unfold inbox_received_handler
    rw [inbox_decode_zeroText]

/-- Witness for C8 amended: the texts "abc" and "-" hold no number and both
fields become 0; the text "50%" holds the number 50, in the range of `int`,
and the threshold becomes 50. -/
theorem inbox_text_without_number_witness :
    hasNoNumber "abc".toList = true ∧ hasNoNumber "-".toList = true ∧
    (inbox_received_handler (sampleHost false) (sampleEnv 50)
      [⟨10004, 0, "abc".toList⟩, ⟨10005, 0, "-".toList⟩]
      { initialState with settings := sampleSettings }).settings.SelectBluetooth = 0 ∧
    (inbox_received_handler (sampleHost false) (sampleEnv 50)
      [⟨10004, 0, "abc".toList⟩, ⟨10005, 0, "-".toList⟩]
      { initialState with settings := sampleSettings }).settings.SelectBatteryPercent = 0 ∧
    (inbox_received_handler (sampleHost false) (sampleEnv 50)
      [⟨10005, 0, "50%".toList⟩]
      { initialState with settings := sampleSettings }).settings.SelectBatteryPercent
      = atoiValue "50%".toList ∧
    atoiValue "50%".toList = 50 :=
  ⟨by decide, by decide,
    (inbox_text_without_number (sampleHost false) (sampleEnv 50)
      [⟨10004, 0, "abc".toList⟩, ⟨10005, 0, "-".toList⟩]
      { initialState with settings := sampleSettings }).1 ⟨10004, 0, "abc".toList⟩
      (by decide) (by decide),
    (inbox_text_without_number (sampleHost false) (sampleEnv 50)
      [⟨10004, 0, "abc".toList⟩, ⟨10005, 0, "-".toList⟩]
      { initialState with settings := sampleSettings }).2.1 ⟨10005, 0, "-".toList⟩
      (by decide) (by decide),
    (inbox_text_without_number (sampleHost false) (sampleEnv 50)
      [⟨10005, 0, "50%".toList⟩]
      { initialState with settings := sampleSettings }).2.2.2.1 ⟨10005, 0, "50%".toList⟩
      (by decide) (by decide) (by decide),
    by decide⟩


/-! ## Refresh sequences of the two handlers -/

theorem callsOf_getHavasLogo_congr (h : Host) (st st2 : State)
    (hs : st2.settings = st.settings) (hb : st2.s_bitmap_havas = st.s_bitmap_havas) :
    callsOf (getHavasLogo h) st2 = callsOf (getHavasLogo h) st := by
  simp [callsOf, getHavasLogo, emit, hs, hb]

theorem callsOf_setColours_congr (h : Host) (st st2 : State)
    (hs : st2.settings = st.settings) :
    callsOf (setColours h) st2 = callsOf (setColours h) st := by
  simp [callsOf, setColours, emit, hs]

theorem callsOf_update_time_congr (e : Env) (st st2 : State) :
    callsOf (update_time e) st2 = callsOf (update_time e) st := by
  simp [callsOf, update_time, emit]

theorem getBatteryIcon_s_bitmap_havas (h : Host) (st : State) :
    (getBatteryIcon h st).s_bitmap_havas = st.s_bitmap_havas := by
  simp [getBatteryIcon, emit]

theorem battery_callback_s_bitmap_havas (h : Host) (c : Nat) (st : State) :
    (battery_callback h c st).s_bitmap_havas = st.s_bitmap_havas := by
  unfold battery_callback
  split <;> simp [emit, getBatteryIcon_s_bitmap_havas]

theorem setColours_appStarted (h : Host) (st : State) :
    (setColours h st).appStarted = st.appStarted := by
  simp [setColours, emit]

theorem update_time_appStarted (e : Env) (st : State) :
    (update_time e st).appStarted = st.appStarted := by
  simp [update_time, emit]

theorem inbox_refresh_eq (h : Host) (e : Env) (st : State) :
    inbox_refresh h e st = update_time e (setColours h
      { getHavasLogo h (battery_callback h e.charge_percent st) with appStarted := true }) := by
  unfold inbox_refresh
  simp only []
  rw [bluetooth_callback_not_started _ _ _ rfl]

theorem window_load_refresh_eq (h : Host) (e : Env) (st : State) :
    window_load_refresh h e st = update_time e (setColours h
      { battery_callback h e.charge_percent st with appStarted := true }) := by
  unfold window_load_refresh
  simp only []
  rw [bluetooth_callback_not_started _ _ _ rfl]

theorem inbox_refresh_trace (h : Host) (e : Env) (st : State) :
    (inbox_refresh h e st).trace = st.trace ++
      (callsOf (battery_callback h e.charge_percent) st ++ callsOf (getHavasLogo h) st ++
        callsOf (setColours h) st ++ callsOf (update_time e) st) := by
  rw [inbox_refresh_eq, update_time_trace, setColours_trace]
  show (getHavasLogo h (battery_callback h e.charge_percent st)).trace ++ _ ++ _ = _
  rw [getHavasLogo_trace, battery_callback_trace]
  rw [callsOf_getHavasLogo_congr h st _ (battery_callback_settings _ _ _)
    (battery_callback_s_bitmap_havas _ _ _)]
  rw [callsOf_setColours_congr h st _
    (by show (getHavasLogo h (battery_callback h e.charge_percent st)).settings = st.settings
        rw [getHavasLogo_settings, battery_callback_settings])]
  rw [callsOf_update_time_congr e st]
  simp only [List.append_assoc]

theorem window_load_refresh_trace (h : Host) (e : Env) (st : State) :
    (window_load_refresh h e st).trace = st.trace ++
      (callsOf (battery_callback h e.charge_percent) st ++
        callsOf (setColours h) st ++ callsOf (update_time e) st) := by
  rw [window_load_refresh_eq, update_time_trace, setColours_trace]
  show (battery_callback h e.charge_percent st).trace ++ _ ++ _ = _
  rw [battery_callback_trace]
  rw [callsOf_setColours_congr h st _
    (by show (battery_callback h e.charge_percent st).settings = st.settings
        rw [battery_callback_settings])]
  rw [callsOf_update_time_congr e st]
  simp only [List.append_assoc]

theorem getBatteryIcon_no_vibe (h : Host) (st : State) :
    ∀ c ∈ callsOf (getBatteryIcon h) st, c.isVibe = false := by
  simp [callsOf, getBatteryIcon, emit, Call.isVibe]

theorem battery_callback_no_vibe (h : Host) (n : Nat) (st : State) :
    ∀ c ∈ callsOf (battery_callback h n) st, c.isVibe = false := by
  unfold callsOf battery_callback
  split <;> simp [getBatteryIcon, emit, Call.isVibe]

theorem getHavasLogo_no_vibe (h : Host) (st : State) :
    ∀ c ∈ callsOf (getHavasLogo h) st, c.isVibe = false := by
  simp [callsOf, getHavasLogo, emit, Call.isVibe]

theorem setColours_no_vibe (h : Host) (st : State) :
    ∀ c ∈ callsOf (setColours h) st, c.isVibe = false := by
  simp [callsOf, setColours, emit, Call.isVibe]

theorem update_time_no_vibe (e : Env) (st : State) :
    ∀ c ∈ callsOf (update_time e) st, c.isVibe = false := by
  simp [callsOf, update_time, emit, Call.isVibe]

/-- C9: `inbox_received_handler` emits no vibration, for every prior state
(also with `appStarted` true), message, connection state, quiet-time state and
resulting settings: none of the calls it makes is a vibration, its Bluetooth
re-evaluation runs with the started flag cleared and therefore changes
nothing, and the flag is true when the handler returns. -/
theorem inbox_received_handler_no_vibration (h : Host) (e : Env) (iter : List Tuple)
    (st : State) :
    (∀ c ∈ callsOf (inbox_received_handler h e iter) st, c.isVibe = false) ∧
    (∀ s : State, bluetooth_callback e e.pebble_app_connection { s with appStarted := false }
      = { s with appStarted := false }) ∧
    (∀ s : State, inbox_refresh h e s = update_time e (setColours h
      { getHavasLogo h (battery_callback h e.charge_percent s) with appStarted := true })) ∧
    (inbox_received_handler h e iter st).appStarted = true := by
  refine ⟨?_, ?_, ?_, ?_⟩
  · have ht : (inbox_received_handler h e iter st).trace = st.trace ++
        (Call.persist_write_data SETTINGS_KEY (inbox_decode h iter st).settings ::
          (callsOf (battery_callback h e.charge_percent) (config_save (inbox_decode h iter st)) ++
            callsOf (getHavasLogo h) (config_save (inbox_decode h iter st)) ++
            callsOf (setColours h) (config_save (inbox_decode h iter st)) ++
            callsOf (update_time e) (config_save (inbox_decode h iter st)))) := by
      unfold inbox_received_handler
      rw [inbox_refresh_trace]
      have hd : (config_save (inbox_decode h iter st)).trace
          = st.trace ++ [Call.persist_write_data SETTINGS_KEY (inbox_decode h iter st).settings] := by
        rw [inbox_decode_eq]
        rfl
      rw [hd]
      simp only [List.append_assoc, List.singleton_append]
    rw [callsOf_of_trace _ _ _ ht]
    intro c hc
    simp only [List.mem_cons, List.mem_append] at hc
    rcases hc with rfl | ((hc | hc) | hc) | hc
    · rfl
    · exact battery_callback_no_vibe _ _ _ c hc
    · exact getHavasLogo_no_vibe _ _ c hc
    · exact setColours_no_vibe _ _ c hc
    · exact update_time_no_vibe _ _ c hc
  · intro s
    exact bluetooth_callback_not_started _ _ _ rfl
  · intro s
    exact inbox_refresh_eq h e s
  · unfold inbox_received_handler
    rw [inbox_refresh_eq, update_time_appStarted, setColours_appStarted]


theorem window_load_setup_calls (h : Host) (e : Env) (st : State) :
    (window_load_setup h e st).trace = st.trace ++
      ([Call.fonts_load_custom_font Resource.FONT_BEBAS_NEUE_BOLD_54,
        Call.text_layer_create LayerId.hour 15 (e.bounds_h - 60) (e.bounds_w.tdiv 2 - 15) 75,
        Call.text_layer_create LayerId.minute (e.bounds_w.tdiv 2) (e.bounds_h - 60)
          (e.bounds_w.tdiv 2 - 15) 75,
        Call.bitmap_layer_create LayerId.havas (e.bounds_w.tdiv 2 - (114 : Int).tdiv 2) 0 114 118,
        Call.bitmap_layer_create LayerId.battery 4 2 12 12,
        Call.layer_mark_dirty LayerId.battery] ++
      (if h.PBL_BW then [] else [Call.bitmap_layer_set_compositing_mode LayerId.battery]) ++
      [Call.layer_add_child LayerId.battery] ++
      callsOf (getHavasLogo h) st ++
      [Call.layer_mark_dirty LayerId.havas] ++
      (if h.PBL_BW then [] else [Call.bitmap_layer_set_compositing_mode LayerId.havas]) ++
      [Call.layer_add_child LayerId.havas,
        Call.text_layer_set_font LayerId.hour,
        Call.text_layer_set_text_alignment LayerId.hour,
        Call.text_layer_set_background_color LayerId.hour GColorClear,
        Call.layer_add_child LayerId.hour,
        Call.text_layer_set_font LayerId.minute,
        Call.text_layer_set_text_alignment LayerId.minute,
        Call.text_layer_set_background_color LayerId.minute GColorClear,
        Call.layer_add_child LayerId.minute]) := by
  cases hb : h.PBL_BW <;>
    simp [callsOf, window_load_setup, getHavasLogo, emit, hb]

/-- C10 as stated fails: on a colour watch at program start with the battery
at 50, the calls `window_load` makes after its setup contain no logo refresh,
while the calls `inbox_received_handler` makes after saving refresh the logo
(three calls) between the battery refresh and the colour refresh. -/
theorem window_load_refresh_counterexample :
    callsOf (window_load_refresh (sampleHost false) (sampleEnv 50))
        (window_load_setup (sampleHost false) (sampleEnv 50) (startState (sampleHost false)))
      = [Call.layer_set_hidden LayerId.battery true,
         Call.window_set_background_color GColorBlack,
         Call.text_layer_set_text_color LayerId.hour GColorChromeYellow,
         Call.text_layer_set_text_color LayerId.minute GColorWhite,
         Call.text_layer_set_text LayerId.hour "09".toList,
         Call.text_layer_set_text LayerId.minute "05".toList] ∧
    callsOf (inbox_refresh (sampleHost false) (sampleEnv 50))
        (config_save (inbox_decode (sampleHost false) [] (startState (sampleHost false))))
      = [Call.layer_set_hidden LayerId.battery true,
         Call.gbitmap_destroy none,
         Call.gbitmap_create_with_resource Resource.IMAGE_HAVAS_WHITE,
         Call.bitmap_layer_set_bitmap LayerId.havas (some Resource.IMAGE_HAVAS_WHITE),
         Call.window_set_background_color GColorBlack,
         Call.text_layer_set_text_color LayerId.hour GColorChromeYellow,
         Call.text_layer_set_text_color LayerId.minute GColorWhite,
         Call.text_layer_set_text LayerId.hour "09".toList,
         Call.text_layer_set_text LayerId.minute "05".toList] ∧
    callsOf (window_load_refresh (sampleHost false) (sampleEnv 50))
        (window_load_setup (sampleHost false) (sampleEnv 50) (startState (sampleHost false)))
      ≠ callsOf (inbox_refresh (sampleHost false) (sampleEnv 50))
        (config_save (inbox_decode (sampleHost false) [] (startState (sampleHost false)))) := by
  refine ⟨by decide, by decide, by decide⟩

/-- C10 amended: after its one-time setup `window_load` performs the battery
icon refresh, the Bluetooth re-evaluation bracketed by clearing and setting
the started flag, the colour refresh and the time refresh, in that order:
the sequence `inbox_received_handler` performs after saving, without the logo
refresh. `window_load` refreshes the logo once, earlier, inside its setup. -/
theorem window_load_refresh_sequence (h : Host) (e : Env) (st : State) :
    callsOf (window_load_refresh h e) st =
      callsOf (battery_callback h e.charge_percent) st ++
        callsOf (setColours h) st ++ callsOf (update_time e) st ∧
    callsOf (inbox_refresh h e) st =
      callsOf (battery_callback h e.charge_percent) st ++ callsOf (getHavasLogo h) st ++
        callsOf (setColours h) st ++ callsOf (update_time e) st ∧
    (∀ s : State, callsOf (bluetooth_callback e e.pebble_app_connection)
      { s with appStarted := false } = []) ∧
    (window_load_refresh h e st).appStarted = true ∧
    (inbox_refresh h e st).appStarted = true ∧
    callsOf (window_load_setup h e) st =
      [Call.fonts_load_custom_font Resource.FONT_BEBAS_NEUE_BOLD_54,
        Call.text_layer_create LayerId.hour 15 (e.bounds_h - 60) (e.bounds_w.tdiv 2 - 15) 75,
        Call.text_layer_create LayerId.minute (e.bounds_w.tdiv 2) (e.bounds_h - 60)
          (e.bounds_w.tdiv 2 - 15) 75,
        Call.bitmap_layer_create LayerId.havas (e.bounds_w.tdiv 2 - (114 : Int).tdiv 2) 0 114 118,
        Call.bitmap_layer_create LayerId.battery 4 2 12 12,
        Call.layer_mark_dirty LayerId.battery] ++
      (if h.PBL_BW then [] else [Call.bitmap_layer_set_compositing_mode LayerId.battery]) ++
      [Call.layer_add_child LayerId.battery] ++
      callsOf (getHavasLogo h) st ++
      [Call.layer_mark_dirty LayerId.havas] ++
      (if h.PBL_BW then [] else [Call.bitmap_layer_set_compositing_mode LayerId.havas]) ++
      [Call.layer_add_child LayerId.havas,
        Call.text_layer_set_font LayerId.hour,
        Call.text_layer_set_text_alignment LayerId.hour,
        Call.text_layer_set_background_color LayerId.hour GColorClear,
        Call.layer_add_child LayerId.hour,
        Call.text_layer_set_font LayerId.minute,
        Call.text_layer_set_text_alignment LayerId.minute,
        Call.text_layer_set_background_color LayerId.minute GColorClear,
        Call.layer_add_child LayerId.minute] ∧
    callsOf (window_load h e) st =
      callsOf (window_load_setup h e) st ++
        callsOf (window_load_refresh h e) (window_load_setup h e st) := by
  refine ⟨?_, ?_, ?_, ?_, ?_, ?_, ?_⟩
  · exact callsOf_of_trace _ _ _ (window_load_refresh_trace h e st)
  · exact callsOf_of_trace _ _ _ (inbox_refresh_trace h e st)
  · intro s
    unfold callsOf
    rw [bluetooth_callback_not_started _ _ _ rfl]
    simp
  · rw [window_load_refresh_eq, update_time_appStarted, setColours_appStarted]
  · rw [inbox_refresh_eq, update_time_appStarted, setColours_appStarted]
  · exact callsOf_of_trace _ _ _ (window_load_setup_calls h e st)
  · have h1 := window_load_setup_calls h e st
    have h2 := window_load_refresh_trace h e (window_load_setup h e st)
    have h3 : callsOf (window_load_refresh h e) (window_load_setup h e st) = _ :=
      callsOf_of_trace _ _ _ h2
    have h4 : callsOf (window_load_setup h e) st = _ := callsOf_of_trace _ _ _ h1
    apply callsOf_of_trace
    unfold window_load
    rw [h2, h3, h4, h1]
    simp only [List.append_assoc]


end HavasLynx
